import Mathlib

/-!
Shallow embedding of the packit-service excerpt:
* `files/scripts/allowlist.py` — allowlist administration CLI,
* `packit_service/worker/build/copr_build.py` — `CoprBuildJobHelper.run_copr_build`
  and `CoprBuildJobHelper.run_build`,
* `tests_requre/database/test_allowlist.py` — allowlist persistence tests.

External collaborators (the Copr client, the forge client, the Celery queue,
Sentry) are represented by an oracle world whose fields give the outcome of
each remote call, and by a trace of effect events recorded in program order.
The allowlist store itself (`AllowlistModel` / `Allowlist`) is not part of the
shown sources, so it is modelled from the spec where indicated.
-/

namespace Packit

/-! ## Allowlist store (spec-modelled) and CLI -/

structure AllowlistEntry where
  account_name : String
  status : String
deriving DecidableEq, Repr

/-- Modelled from the spec: `AllowlistModel.add_account` (ORM layer, not among
the shown sources; only its tests are). The store is a mapping from
`account_name` to `status`; `add_account` upserts by `account_name`, last
write wins on a duplicate insert. -/
def add_account : List AllowlistEntry → String → String → List AllowlistEntry
  | [], name, status => [⟨name, status⟩]
  | e :: rest, name, status =>
    if e.account_name = name then ⟨name, status⟩ :: rest
    else e :: add_account rest name status

/-- Modelled from the spec: `AllowlistModel.get_account` returns the entry for
the given account name, or absent. -/
def get_account (db : List AllowlistEntry) (name : String) : Option AllowlistEntry :=
  db.find? (fun e => e.account_name = name)

/-- Modelled from the spec: `AllowlistModel.get_accounts_by_status` returns the
entries currently having the given status. -/
def get_accounts_by_status (db : List AllowlistEntry) (status : String) :
    List AllowlistEntry :=
  db.filter (fun e => e.status = status)

/-- Modelled from the spec: `AllowlistModel.remove_account` deletes the entry if
present, no error if absent. -/
def remove_account (db : List AllowlistEntry) (name : String) : List AllowlistEntry :=
  db.filter (fun e => ¬ e.account_name = name)

/-- Modelled from the spec: `Allowlist().accounts_waiting()` (worker layer, not
among the shown sources) returns the account names currently in the waiting
state, i.e. the store's list-by-status for "waiting". -/
def accounts_waiting (db : List AllowlistEntry) : List String :=
  (get_accounts_by_status db "waiting").map AllowlistEntry.account_name

/-- The `waiting` CLI command (`files/scripts/allowlist.py`): prints the
comma-joined waiting accounts behind a fixed prefix. -/
def waiting_output (db : List AllowlistEntry) : String :=
  "Accounts waiting for approval: " ++ String.intercalate ", " (accounts_waiting db)

/-- The store invariant: at most one entry per `account_name`. -/
def uniqueNames (db : List AllowlistEntry) : Prop :=
  (db.map AllowlistEntry.account_name).Nodup

/-- The fixture `multiple_allowlist_entries` of
`tests_requre/database/test_allowlist.py`: five adds, `Deoxys` repeated. -/
def fixtureDB : List AllowlistEntry :=
  add_account (add_account (add_account (add_account (add_account []
    "Rayquaza" "approved_manually") "Deoxys" "approved_manually")
    "Deoxys" "waiting") "Solgaleo" "waiting") "Zacian" "approved_manually"

/-! ## Copr build helper: data model -/

/-- `ogr.abstract.CommitStatus` values used by `copr_build.py`. -/
inductive CommitStatus where
  | pending
  | failure
  | error
  | success
deriving DecidableEq, Repr

/-- The `metadata` of a job definition from the config file
(`job_build.metadata` accesses in `copr_build.py`). -/
structure JobMetadata where
  project : Option String
  owner : Option String
  preserve_project : Option Bool
  list_on_homepage : Option Bool
  additional_repos : Option (List String)
deriving DecidableEq, Repr

structure JobConfig where
  metadata : JobMetadata
deriving DecidableEq, Repr

/-- The event data used by the helper: commit sha and an optional PR id. -/
structure EventData where
  commit_sha : String
  pr_id : Option Nat
deriving DecidableEq, Repr

/-- The persisted source-package record: id and success flag. -/
structure SRPMBuildModel where
  id : Nat
  success : Bool
deriving DecidableEq, Repr

/-- The state of a `CoprBuildJobHelper` as far as `run_copr_build` and
`run_build` read it. `build_targets` is the already-resolved chroot set (the
source computes it via the external `get_build_targets` alias helper);
`copr_config_username` is `copr_client.config.get("username")`;
`configured_owner` is `api.copr_helper.configured_owner`; `srpm_model` and
`srpm_path` hold the source-package state after `create_srpm_if_needed`. -/
structure CoprBuildJobHelper where
  job_build : Option JobConfig
  job_tests : Option JobConfig
  metadata : EventData
  build_targets : List String
  default_project_name : String
  copr_config_username : Option String
  configured_owner : Option String
  srpm_model : SRPMBuildModel
  srpm_path : String
  db_trigger : Nat
deriving DecidableEq, Repr

/-- Python truthiness of an optional string: `None` and `""` are falsy. -/
def truthyStr : Option String → Option String
  | some s => if s = "" then none else some s
  | none => none

/-- Python truthiness of an optional integer: `None` and `0` are falsy. -/
def truthyNat : Option Nat → Option Nat
  | some 0 => none
  | x => x

/-- Python `a or b` over optional strings, as used for owner resolution. -/
def pyOr (a b : Option String) : Option String :=
  match truthyStr a with
  | some s => some s
  | none => truthyStr b

/-- `CoprBuildJobHelper.job_project`: the configured project name if the build
job sets one, otherwise the default project name. -/
def job_project (h : CoprBuildJobHelper) : String :=
  match h.job_build with
  | some jb =>
    match truthyStr jb.metadata.project with
    | some p => p
    | none => h.default_project_name
  | none => h.default_project_name

/-- `CoprBuildJobHelper.job_owner`: configured per-job owner, otherwise the
copr config username. -/
def job_owner (h : CoprBuildJobHelper) : Option String :=
  match h.job_build with
  | some jb =>
    match truthyStr jb.metadata.owner with
    | some o => some o
    | none => h.copr_config_username
  | none => h.copr_config_username

/-- `CoprBuildJobHelper.preserve_project`. -/
def preserve_project (h : CoprBuildJobHelper) : Option Bool :=
  match h.job_build with
  | some jb => jb.metadata.preserve_project
  | none => none

/-- `CoprBuildJobHelper.list_on_homepage`. -/
def list_on_homepage (h : CoprBuildJobHelper) : Option Bool :=
  match h.job_build with
  | some jb => jb.metadata.list_on_homepage
  | none => none

/-- `CoprBuildJobHelper.additional_repos`. -/
def additional_repos (h : CoprBuildJobHelper) : Option (List String) :=
  match h.job_build with
  | some jb => jb.metadata.additional_repos
  | none => none

/-- The Python exceptions flowing through `run_build` / `run_copr_build`. -/
inductive PyException where
  | packitCoprException (msg : String)
  | packitCoprSettingsException (msg : String)
      (fields_to_change : List (String × String × String))
  | coprRequestException (msg : String)
  | otherException (msg : String)
deriving DecidableEq, Repr

/-- `str(ex)` for the modelled exceptions. -/
def exceptionMessage : PyException → String
  | .packitCoprException m => m
  | .packitCoprSettingsException m _ => m
  | .coprRequestException m => m
  | .otherException m => m

/-- One externally visible call made by the workflow, in program order. -/
inductive Effect where
  | reportStatusToAll (state : CommitStatus) (description : String) (url : Option String)
  | createSrpmIfNeeded
  | createCoprProjectIfNotExists (project : String) (chroots : List String)
      (owner : String) (description : Option String) (instructions : Option String)
      (listOnHomepage : Option Bool) (preserveProject : Option Bool)
      (additionalRepos : Option (List String)) (requestAdminIfNeeded : Bool)
  | prComment (prId : Nat) (body : String)
  | createFromFile (ownername : String) (projectname : String) (path : String)
  | requestPermissions (ownername : String) (projectname : String) (builder : Bool)
  | getOrCreateBuild (buildId : String) (target : String)
  | reportStatusToAllForChroot (state : CommitStatus) (description : String)
      (url : String) (chroot : String)
  | sendTask (name : String) (args : List Nat) (countdown : Nat)
  | sendToSentry (msg : String)
deriving DecidableEq, Repr

/-- Outcomes the external world returns for the two remote Copr calls of
`run_build`: `create_copr_project_if_not_exists` and
`build_proxy.create_from_file` (the latter yields the build id and its
web url on success). -/
structure CoprWorld where
  create_project_result : Except PyException Unit
  create_from_file_result : Except PyException (Nat × String)

/-- A persisted Copr build record (`CoprBuildModel`). -/
structure CoprBuildRecord where
  id : Nat
  build_id : String
  commit_sha : String
  project_name : String
  owner : Option String
  web_url : String
  target : String
  status : String
  srpm_build_id : Nat
  trigger_id : Nat
deriving DecidableEq, Repr

/-- Modelled from the spec: `CoprBuildModel.get_or_create` (ORM layer, not
among the shown sources) fetches the record keyed by `(build_id, target)` or
creates a new one with the given fields and a fresh primary key. -/
def CoprBuildModel_get_or_create (db : List CoprBuildRecord)
    (build_id commit_sha project_name : String) (owner : Option String)
    (web_url target status : String) (srpm_build trigger_model : Nat) :
    CoprBuildRecord × List CoprBuildRecord :=
  match db.find? (fun r => r.build_id == build_id && r.target == target) with
  | some r => (r, db)
  | none =>
    let r : CoprBuildRecord :=
      ⟨(db.map CoprBuildRecord.id).foldr max 0 + 1, build_id, commit_sha,
       project_name, owner, web_url, target, status, srpm_build, trigger_model⟩
    (r, db ++ [r])

/-- Modelled from the spec: `get_copr_build_info_url_from_flask` (service URL
helper, not among the shown sources) is the link to the detail page of the
persisted build record with the given id. -/
def get_copr_build_info_url_from_flask (i : Nat) : String :=
  "/results/copr-builds/" ++ toString i

/-- Modelled from the spec: `get_srpm_log_url_from_flask` (service URL helper,
not among the shown sources) is the link to the SRPM log page for the given
source-package record id. -/
def get_srpm_log_url_from_flask (i : Nat) : String :=
  "/results/srpm-builds/" ++ toString i

/-- Modelled from the spec: `copr_helper.get_copr_settings_url` (packit
library, not among the shown sources) is the URL of the named section of the
Copr project settings page. -/
def get_copr_settings_url (owner project sect : String) : String :=
  "https://copr.fedorainfracloud.org/coprs/" ++ owner ++ "/" ++ project
    ++ "/edit/#" ++ sect

/-- The message `CoprRequestException` carries when the build submission is
rejected for missing builder permissions (`copr_build.py` line 294). -/
def permissionDeniedMsg : String :=
  "You don\x27t have permissions to build in this copr."

/-- Substring containment, the embedding of Python's `in` on strings. -/
def strContains (s pat : String) : Prop :=
  pat.data <:+: s.data

instance (s pat : String) : Decidable (strContains s pat) :=
  inferInstanceAs (Decidable (pat.data <:+: s.data))

/-- One row of the settings table in the settings-permission comment. -/
def settingsTableRow (field oldValue newValue : String) : String :=
  "| " ++ field ++ " | " ++ oldValue ++ " | " ++ newValue ++ " |\n"

/-- The settings table of the settings-permission comment: the header plus one
row per entry of `fields_to_change`, accumulated in order. -/
def settingsTable (fields : List (String × String × String)) : String :=
  fields.foldl
    (fun table f => table ++ settingsTableRow f.1 f.2.1 f.2.2)
    "| field | old value | new value |\n| ----- | --------- | --------- |\n"

/-- The PR comment body posted on a `PackitCoprSettingsException`
(`copr_build.py` lines 262-281). -/
def settingsCommentBody (owner project : String)
    (fields : List (String × String × String)) : String :=
  "Based on your Packit configuration the settings of the "
    ++ owner ++ "/" ++ project
    ++ " Copr project would need to be updated as follows:\n\n"
    ++ settingsTable fields
    ++ ("\nPackit was unable to update the settings above as it is missing `admin` permissions on the "
    ++ owner ++ "/" ++ project ++ " Copr project.\n\nTo fix this you can do one of the following:\n\n- Grant Packit `admin` permissions on the "
    ++ owner ++ "/" ++ project
    ++ " Copr project.\n- Change the above Copr project settings manually to match the Packit configuration.\n- Update the Packit configuration to match the Copr project settings.\n\nPlease re-trigger the build, once the issue above is fixed.\n")

/-- The PR comment body posted after requesting builder permissions
(`copr_build.py` lines 304-313). -/
def builderCommentBody (owner project : String) : String :=
  ("We have requested the `builder` permissions for the "
    ++ owner ++ "/" ++ project ++ " Copr project.\n\nPlease confirm the request on the ["
    ++ owner ++ "/" ++ project ++ " Copr project permissions page](")
    ++ get_copr_settings_url owner project "permissions"
    ++ ") and re-trigger the build."

set_option linter.unusedVariables false in
/-- `CoprBuildJobHelper.run_build`: resolve the owner, ensure the Copr project
exists, submit the source package, and return the build id and web url.
The optional `target` parameter is accepted as in the source but never read.
Returns the Python outcome (value or propagated exception) together with the
trace of external calls made. -/
def run_build (h : CoprBuildJobHelper) (w : CoprWorld) (target : Option String) :
    Except PyException (Nat × String) × List Effect :=
  match pyOr (job_owner h) h.configured_owner with
  | none =>
    (Except.error (PyException.packitCoprException
      "Copr owner not set. Use Copr config file or `--owner` when calling packit CLI."),
     [])
  | some owner =>
    let ensureEff := Effect.createCoprProjectIfNotExists (job_project h)
      h.build_targets owner none none
      (if owner = "packit" then list_on_homepage h else none)
      (if owner = "packit" then preserve_project h else none)
      (additional_repos h) true
    match w.create_project_result with
    | Except.error (PyException.packitCoprSettingsException m fields) =>
      match truthyNat h.metadata.pr_id with
      | some prId =>
        (Except.error (PyException.packitCoprSettingsException m fields),
         [ensureEff,
          Effect.prComment prId (settingsCommentBody owner (job_project h) fields)])
      | none =>
        (Except.error (PyException.packitCoprSettingsException m fields), [ensureEff])
    | Except.error ex => (Except.error ex, [ensureEff])
    | Except.ok _ =>
      let submitEff := Effect.createFromFile owner (job_project h) h.srpm_path
      match w.create_from_file_result with
      | Except.ok (bid, url) => (Except.ok (bid, url), [ensureEff, submitEff])
      | Except.error (PyException.coprRequestException m) =>
        if strContains m permissionDeniedMsg then
          match truthyNat h.metadata.pr_id with
          | some prId =>
            (Except.error (PyException.coprRequestException m),
             [ensureEff, submitEff,
              Effect.requestPermissions owner (job_project h) true,
              Effect.prComment prId (builderCommentBody owner (job_project h))])
          | none =>
            (Except.error (PyException.coprRequestException m),
             [ensureEff, submitEff,
              Effect.requestPermissions owner (job_project h) true])
        else
          (Except.error (PyException.coprRequestException m), [ensureEff, submitEff])
      | Except.error ex => (Except.error ex, [ensureEff, submitEff])

/-- The per-chroot loop of `run_copr_build` (`copr_build.py` lines 195-213):
for each build target, create-or-fetch the persisted build record and report a
pending "Starting RPM build..." status for that chroot linking to the record's
detail page. Returns the effects and the updated record store. -/
def processBuildTargets (h : CoprBuildJobHelper) (bid : Nat) (webUrl : String) :
    List String → List CoprBuildRecord → List Effect × List CoprBuildRecord
  | [], db => ([], db)
  | chroot :: rest, db =>
    let res := CoprBuildModel_get_or_create db (toString bid) h.metadata.commit_sha
      (job_project h) (job_owner h) webUrl chroot "pending" h.srpm_model.id h.db_trigger
    let tail := processBuildTargets h bid webUrl rest res.2
    (Effect.getOrCreateBuild (toString bid) chroot
       :: Effect.reportStatusToAllForChroot CommitStatus.pending "Starting RPM build..."
            (get_copr_build_info_url_from_flask res.1.id) chroot
       :: tail.1,
     tail.2)

/-- The result value of the workflow (`TaskResults`): success flag and the
`msg` / `error` detail entries. -/
structure TaskResults where
  success : Bool
  details_msg : Option String
  details_error : Option String
deriving DecidableEq, Repr

/-- `CoprBuildJobHelper.run_copr_build` (`copr_build.py` lines 156-222), over
the helper state, the external world and the persisted record store. Returns
the `TaskResults` value, the trace of external calls, and the updated store. -/
def run_copr_build (h : CoprBuildJobHelper) (w : CoprWorld)
    (db : List CoprBuildRecord) :
    TaskResults × List Effect × List CoprBuildRecord :=
  if h.job_build.isNone && h.job_tests.isNone then
    (⟨false, some "No copr_build or tests job defined.", none⟩, [], db)
  else
    let pre := [Effect.reportStatusToAll CommitStatus.pending "Building SRPM ..." (some ""),
                Effect.createSrpmIfNeeded]
    if !h.srpm_model.success then
      (⟨false, some "SRPM build failed, check the logs for details.", none⟩,
       pre ++ [Effect.reportStatusToAll CommitStatus.failure
                 "SRPM build failed, check the logs for details."
                 (some (get_srpm_log_url_from_flask h.srpm_model.id))],
       db)
    else
      match run_build h w none with
      | (Except.error ex, tr) =>
        (⟨false, some "Submit of the Copr build failed.", some (exceptionMessage ex)⟩,
         pre ++ tr
           ++ [Effect.sendToSentry (exceptionMessage ex),
               Effect.reportStatusToAll CommitStatus.error
                 ("Submit of the build failed: " ++ exceptionMessage ex) none],
         db)
      | (Except.ok (bid, webUrl), tr) =>
        let chroots := processBuildTargets h bid webUrl h.build_targets db
        (⟨true, none, none⟩,
         pre ++ tr ++ chroots.1
           ++ [Effect.sendTask "task.babysit_copr_build" [bid] 120],
         chroots.2)

/-- Classifier: is the effect a task enqueue? -/
def isSendTask : Effect → Bool
  | .sendTask _ _ _ => true
  | _ => false

/-- Classifier: is the effect a build submission (`create_from_file`)? -/
def isCreateFromFile : Effect → Bool
  | .createFromFile _ _ _ => true
  | _ => false

/-- Classifier: is the effect a project-ensure call? -/
def isCreateProject : Effect → Bool
  | .createCoprProjectIfNotExists _ _ _ _ _ _ _ _ _ => true
  | _ => false

/-- Classifier: is the effect a PR comment? -/
def isPrComment : Effect → Bool
  | .prComment _ _ => true
  | _ => false

/-- Classifier: is the effect a forge status report? -/
def isStatusReport : Effect → Bool
  | .reportStatusToAll _ _ _ => true
  | .reportStatusToAllForChroot _ _ _ _ => true
  | _ => false

/-- The key test used by `CoprBuildModel_get_or_create`: the record is the one
persisted for the pair `(build_id, target)`. -/
def recKey (b t : String) (r : CoprBuildRecord) : Bool :=
  r.build_id == b && r.target == t

/-! ## Concrete fixtures used by the witness theorems -/

def sampleJobMetadata : JobMetadata := ⟨none, none, none, none, none⟩

/-- A helper with a configured build job, a PR context (id 5), two resolved
build targets and a successful SRPM. -/
def sampleHelper : CoprBuildJobHelper :=
  ⟨some ⟨sampleJobMetadata⟩, none, ⟨"deadbeef", some 5⟩,
   ["fedora-31-x86_64", "fedora-32-x86_64"], "ns-repo-5", some "packit", none,
   ⟨7, true⟩, "/tmp/x.src.rpm", 42⟩

/-- Like `sampleHelper` but with no build and no test job configured. -/
def noJobHelper : CoprBuildJobHelper :=
  ⟨none, none, ⟨"deadbeef", some 5⟩, ["fedora-31-x86_64"], "ns-repo-5",
   some "packit", none, ⟨7, true⟩, "/tmp/x.src.rpm", 42⟩

/-- Like `sampleHelper` but with a failed SRPM build. -/
def srpmFailHelper : CoprBuildJobHelper :=
  ⟨some ⟨sampleJobMetadata⟩, none, ⟨"deadbeef", some 5⟩,
   ["fedora-31-x86_64", "fedora-32-x86_64"], "ns-repo-5", some "packit", none,
   ⟨7, false⟩, "/tmp/x.src.rpm", 42⟩

/-- A world where both remote calls succeed: build id 123. -/
def sampleOkWorld : CoprWorld :=
  ⟨Except.ok (), Except.ok (123, "http://copr/build/123")⟩

/-- A world where ensuring the project raises a settings-permission error. -/
def sampleSettingsWorld : CoprWorld :=
  ⟨Except.error (PyException.packitCoprSettingsException "failed to update settings"
     [("unlisted_on_hp", "True", "False"), ("preserve_project", "False", "True")]),
   Except.ok (123, "http://copr/build/123")⟩

/-- A world where the build submission raises a builder-permission error. -/
def samplePermWorld : CoprWorld :=
  ⟨Except.ok (), Except.error (PyException.coprRequestException permissionDeniedMsg)⟩

/-- A world where the build submission raises an unexpected error. -/
def sampleErrWorld : CoprWorld :=
  ⟨Except.ok (), Except.error (PyException.otherException "boom")⟩

/-! ## Lemmas about the allowlist store -/

lemma get_account_add_same (db : List AllowlistEntry) (n s : String) :
    get_account (add_account db n s) n = some ⟨n, s⟩ := by
  induction db with
  | nil => simp [add_account, get_account]
  | cons e rest ih =>
    by_cases hn : e.account_name = n
    · simp [add_account, hn, get_account]
    · simp only [add_account, hn, if_false, ite_false]
      unfold get_account at ih ⊢
      rw [List.find?_cons_of_neg _ (by simp [hn])]
      exact ih

lemma add_account_names (db : List AllowlistEntry) (n s : String) :
    (add_account db n s).map AllowlistEntry.account_name =
      if n ∈ db.map AllowlistEntry.account_name
      then db.map AllowlistEntry.account_name
      else db.map AllowlistEntry.account_name ++ [n] := by
  induction db with
  | nil => simp [add_account]
  | cons e rest ih =>
    by_cases hn : e.account_name = n
    · simp [add_account, hn]
    · by_cases hm : n ∈ rest.map AllowlistEntry.account_name
      · simp [add_account, hn, ih, hm, Ne.symm hn]
      · simp [add_account, hn, ih, hm, Ne.symm hn]

lemma uniqueNames_add (db : List AllowlistEntry) (n s : String)
    (hu : uniqueNames db) : uniqueNames (add_account db n s) := by
  unfold uniqueNames at hu ⊢
  rw [add_account_names]
  by_cases hm : n ∈ db.map AllowlistEntry.account_name
  · simpa [hm] using hu
  · simp [hm, List.nodup_append, hu]

lemma filter_add_same (db : List AllowlistEntry) (n s : String) (hu : uniqueNames db) :
    (add_account db n s).filter (fun e => e.account_name = n) = [⟨n, s⟩] := by
  induction db with
  | nil => simp [add_account]
  | cons e rest ih =>
    have hu2 : uniqueNames rest := by
      unfold uniqueNames at hu ⊢
      exact (List.nodup_cons.1 hu).2
    by_cases hn : e.account_name = n
    · have hrest : rest.filter (fun e => e.account_name = n) = [] := by
        rw [List.filter_eq_nil_iff]
        intro a ha
        have hnames : a.account_name ∈ rest.map AllowlistEntry.account_name :=
          List.mem_map_of_mem _ ha
        have hne : e.account_name ∉ rest.map AllowlistEntry.account_name :=
          (List.nodup_cons.1 hu).1
        simp only [decide_eq_true_eq]
        intro hc
        exact hne (by rw [hn]; exact hc ▸ hnames)
      simp [add_account, hn, hrest]
    · simp [add_account, hn, ih hu2]

/-! ## Lemmas about build-record keying -/

lemma processBuildTargets_db (h : CoprBuildJobHelper) (bid : Nat) (webUrl : String)
    (ts : List String) (db : List CoprBuildRecord) :
    ∃ extra, (processBuildTargets h bid webUrl ts db).2 = db ++ extra ∧
      ∀ r ∈ extra, r.build_id = toString bid ∧ r.target ∈ ts ∧ r.status = "pending" := by
  induction ts generalizing db with
  | nil => exact ⟨[], by simp [processBuildTargets], by simp⟩
  | cons t ts ih =>
    simp only [processBuildTargets, CoprBuildModel_get_or_create]
    cases hf : db.find? (fun r => r.build_id == toString bid && r.target == t) with
    | some r =>
      simp only [hf]
      obtain ⟨extra, he, hall⟩ := ih db
      refine ⟨extra, he, fun r hr => ?_⟩
      obtain ⟨h1, h2, h3⟩ := hall r hr
      exact ⟨h1, List.mem_cons_of_mem _ h2, h3⟩
    | none =>
      simp only [hf]
      obtain ⟨extra, he, hall⟩ :=
        ih (db ++ [⟨(db.map CoprBuildRecord.id).foldr max 0 + 1, toString bid,
          h.metadata.commit_sha, job_project h, job_owner h, webUrl, t, "pending",
          h.srpm_model.id, h.db_trigger⟩])
      refine ⟨⟨(db.map CoprBuildRecord.id).foldr max 0 + 1, toString bid,
          h.metadata.commit_sha, job_project h, job_owner h, webUrl, t, "pending",
          h.srpm_model.id, h.db_trigger⟩ :: extra, by simpa using he, ?_⟩
      intro r hr
      rcases List.mem_cons.1 hr with hr0 | hrext
      · subst hr0
        exact ⟨rfl, List.mem_cons_self _ _, rfl⟩
      · obtain ⟨h1, h2, h3⟩ := hall r hrext
        exact ⟨h1, List.mem_cons_of_mem _ h2, h3⟩

lemma processBuildTargets_spec (h : CoprBuildJobHelper) (bid : Nat) (webUrl : String)
    (ts : List String) (db : List CoprBuildRecord)
    (hnd : ts.Nodup)
    (hfresh : ∀ t ∈ ts, ∀ r ∈ db, recKey (toString bid) t r = false) :
    ∀ t ∈ ts,
      ((processBuildTargets h bid webUrl ts db).2.filter (recKey (toString bid) t)).length
          = 1 ∧
      ∃ r, r ∈ (processBuildTargets h bid webUrl ts db).2 ∧
        r.build_id = toString bid ∧ r.target = t ∧ r.status = "pending" ∧
        Effect.reportStatusToAllForChroot CommitStatus.pending "Starting RPM build..."
          (get_copr_build_info_url_from_flask r.id) t
            ∈ (processBuildTargets h bid webUrl ts db).1 := by
  induction ts generalizing db with
  | nil => intro t ht; exact absurd ht (List.not_mem_nil t)
  | cons t0 ts ih =>
    have hnd2 := List.nodup_cons.1 hnd
    have hf : db.find? (fun r => r.build_id == toString bid && r.target == t0) = none := by
      rw [List.find?_eq_none]
      intro r hr
      have := hfresh t0 (List.mem_cons_self _ _) r hr
      simpa [recKey] using this
    -- the freshly created record
    set r0 : CoprBuildRecord :=
      ⟨(db.map CoprBuildRecord.id).foldr max 0 + 1, toString bid,
        h.metadata.commit_sha, job_project h, job_owner h, webUrl, t0, "pending",
        h.srpm_model.id, h.db_trigger⟩ with hr0
    have hstep :
        processBuildTargets h bid webUrl (t0 :: ts) db =
          (Effect.getOrCreateBuild (toString bid) t0
             :: Effect.reportStatusToAllForChroot CommitStatus.pending
                  "Starting RPM build..." (get_copr_build_info_url_from_flask r0.id) t0
             :: (processBuildTargets h bid webUrl ts (db ++ [r0])).1,
           (processBuildTargets h bid webUrl ts (db ++ [r0])).2) := by
      simp only [processBuildTargets, CoprBuildModel_get_or_create, hf, hr0]
    have hfresh2 : ∀ t ∈ ts, ∀ r ∈ db ++ [r0], recKey (toString bid) t r = false := by
      intro t ht r hr
      rcases List.mem_append.1 hr with hdb | hone
      · exact hfresh t (List.mem_cons_of_mem _ ht) r hdb
      · have : r = r0 := by simpa using hone
        subst this
        have htne : r0.target ≠ t := by
          simp only [hr0]
          intro hc
          exact hnd2.1 (hc ▸ ht)
        simp [recKey, htne]
    intro t ht
    rcases List.mem_cons.1 ht with rfl | hts
    · -- the head target
      obtain ⟨extra, hdb', hall⟩ := processBuildTargets_db h bid webUrl ts (db ++ [r0])
      rw [hstep]
      constructor
      · simp only [hdb']
        rw [List.filter_append, List.filter_append]
        have h1 : db.filter (recKey (toString bid) t) = [] := by
          rw [List.filter_eq_nil_iff]
          intro r hr
          simp [hfresh t (List.mem_cons_self _ _) r hr]
        have h2 : [r0].filter (recKey (toString bid) t) = [r0] := by
          simp [recKey, hr0]
        have h3 : extra.filter (recKey (toString bid) t) = [] := by
          rw [List.filter_eq_nil_iff]
          intro r hr
          have := (hall r hr).2.1
          have hne : r.target ≠ t := by
            intro hc
            exact hnd2.1 (hc ▸ this)
          simp [recKey, hne]
        rw [h1, h2, h3]
        simp
      · refine ⟨r0, ?_, by simp [hr0], by simp [hr0], by simp [hr0], ?_⟩
        · rw [hdb']
          exact List.mem_append_left _ (List.mem_append_right _ (by simp))
        · simp
    · -- a target of the tail
      obtain ⟨hlen, r, hrmem, hrb, hrt, hrs, heff⟩ :=
        ih (db ++ [r0]) hnd2.2 hfresh2 t hts
      rw [hstep]
      exact ⟨hlen, r, hrmem, hrb, hrt, hrs, by simp [heff]⟩

/-! ## Lemmas about the `run_build` trace -/

lemma run_build_no_sendTask (h : CoprBuildJobHelper) (w : CoprWorld)
    (t : Option String) : ∀ e ∈ (run_build h w t).2, isSendTask e = false := by
  unfold run_build
  repeat' split
  all_goals simp [isSendTask]

lemma run_build_createFromFile_le_one (h : CoprBuildJobHelper) (w : CoprWorld)
    (t : Option String) : (run_build h w t).2.countP isCreateFromFile ≤ 1 := by
  unfold run_build
  repeat' split
  all_goals simp [List.countP_cons, isCreateFromFile]

lemma createProject_shape {h : CoprBuildJobHelper} {w : CoprWorld} {t : Option String}
    {p : String} {c : List String} {o : String} {d i : Option String}
    {lh pp : Option Bool} {ar : Option (List String)} {raif : Bool}
    (hmem : Effect.createCoprProjectIfNotExists p c o d i lh pp ar raif
      ∈ (run_build h w t).2) :
    pyOr (job_owner h) h.configured_owner = some o ∧
    p = job_project h ∧ c = h.build_targets ∧ d = none ∧ i = none ∧
    lh = (if o = "packit" then list_on_homepage h else none) ∧
    pp = (if o = "packit" then preserve_project h else none) ∧
    ar = additional_repos h ∧ raif = true := by
  unfold run_build at hmem
  repeat' split at hmem
  all_goals simp_all

lemma processBuildTargets_no_sendTask (h : CoprBuildJobHelper) (bid : Nat)
    (webUrl : String) (ts : List String) (db : List CoprBuildRecord) :
    ∀ e ∈ (processBuildTargets h bid webUrl ts db).1, isSendTask e = false := by
  induction ts generalizing db with
  | nil => simp [processBuildTargets]
  | cons t0 ts ih =>
    intro e he
    simp only [processBuildTargets, List.mem_cons] at he
    rcases he with rfl | rfl | hmem
    · rfl
    · rfl
    · exact ih _ e hmem

/-! ## Lemmas about string containment in comment bodies -/

lemma strContains_append_left (a b pat : String) (h : strContains b pat) :
    strContains (a ++ b) pat := by
  unfold strContains at h ⊢
  rw [String.data_append]
  exact h.trans (List.suffix_append _ _).isInfix

lemma strContains_append_right (a b pat : String) (h : strContains a pat) :
    strContains (a ++ b) pat := by
  unfold strContains at h ⊢
  rw [String.data_append]
  exact h.trans (List.prefix_append _ _).isInfix

lemma prefix_data_foldl (fields : List (String × String × String)) (acc : String) :
    acc.data <+:
      (fields.foldl (fun table f => table ++ settingsTableRow f.1 f.2.1 f.2.2) acc).data := by
  induction fields generalizing acc with
  | nil => simp
  | cons f fs ih =>
    simp only [List.foldl_cons]
    refine List.IsPrefix.trans ?_ (ih _)
    rw [String.data_append]
    exact List.prefix_append _ _

lemma row_infix_foldl (fields : List (String × String × String))
    (f : String × String × String) (hf : f ∈ fields) (acc : String) :
    (settingsTableRow f.1 f.2.1 f.2.2).data <:+:
      (fields.foldl (fun table g => table ++ settingsTableRow g.1 g.2.1 g.2.2) acc).data := by
  induction fields generalizing acc with
  | nil => exact absurd hf (List.not_mem_nil f)
  | cons g gs ih =>
    simp only [List.foldl_cons]
    rcases List.mem_cons.1 hf with rfl | hf2
    · have h1 : (settingsTableRow f.1 f.2.1 f.2.2).data <:+:
          (acc ++ settingsTableRow f.1 f.2.1 f.2.2).data := by
        rw [String.data_append]
        exact (List.suffix_append _ _).isInfix
      exact h1.trans (prefix_data_foldl gs _).isInfix
    · exact ih hf2 _

lemma row_infix_settingsCommentBody (owner project : String)
    (fields : List (String × String × String)) (f : String × String × String)
    (hf : f ∈ fields) :
    strContains (settingsCommentBody owner project fields)
      (settingsTableRow f.1 f.2.1 f.2.2) := by
  unfold settingsCommentBody
  apply strContains_append_right
  apply strContains_append_left
  exact row_infix_foldl fields f hf _

lemma url_infix_builderCommentBody (owner project : String) :
    strContains (builderCommentBody owner project)
      (get_copr_settings_url owner project "permissions") := by
  unfold builderCommentBody
  apply strContains_append_right
  apply strContains_append_left
  exact List.infix_rfl

/-! ## Claim theorems -/

/-- C2: if neither a build job nor a test job is configured, `run_copr_build`
returns a failure result with the descriptive message and makes no forge
status-reporting call, no source-package build, no remote submission, no
record creation and no task enqueue (the effect trace is empty and the record
store is unchanged). -/
theorem c2_no_job_fails_without_reporting (h : CoprBuildJobHelper) (w : CoprWorld)
    (db : List CoprBuildRecord) (hb : h.job_build = none) (ht : h.job_tests = none) :
    run_copr_build h w db =
      (⟨false, some "No copr_build or tests job defined.", none⟩, [], db) := by
  simp [run_copr_build, hb, ht]

theorem c2_no_job_fails_without_reporting_witness :
    run_copr_build noJobHelper sampleOkWorld [] =
      (⟨false, some "No copr_build or tests job defined.", none⟩, [], []) :=
  c2_no_job_fails_without_reporting noJobHelper sampleOkWorld [] rfl rfl

/-- C3: if the SRPM build failed, `run_copr_build` reports a failure status to
all targets with the SRPM log URL and returns a failure result; the trace
contains no remote build-submission call and the record store is unchanged. -/
theorem c3_srpm_failure_no_submission (h : CoprBuildJobHelper) (w : CoprWorld)
    (db : List CoprBuildRecord)
    (hj : (h.job_build.isNone && h.job_tests.isNone) = false)
    (hs : h.srpm_model.success = false) :
    run_copr_build h w db =
      (⟨false, some "SRPM build failed, check the logs for details.", none⟩,
       [Effect.reportStatusToAll CommitStatus.pending "Building SRPM ..." (some ""),
        Effect.createSrpmIfNeeded,
        Effect.reportStatusToAll CommitStatus.failure
          "SRPM build failed, check the logs for details."
          (some (get_srpm_log_url_from_flask h.srpm_model.id))],
       db)
    ∧ ∀ e ∈ (run_copr_build h w db).2.1,
        isCreateFromFile e = false ∧ isCreateProject e = false := by
  have h1 : run_copr_build h w db =
      (⟨false, some "SRPM build failed, check the logs for details.", none⟩,
       [Effect.reportStatusToAll CommitStatus.pending "Building SRPM ..." (some ""),
        Effect.createSrpmIfNeeded,
        Effect.reportStatusToAll CommitStatus.failure
          "SRPM build failed, check the logs for details."
          (some (get_srpm_log_url_from_flask h.srpm_model.id))],
       db) := by
    simp [run_copr_build, hj, hs]
  refine ⟨h1, ?_⟩
  rw [h1]
  simp [isCreateFromFile, isCreateProject]

theorem c3_srpm_failure_no_submission_witness :
    run_copr_build srpmFailHelper sampleOkWorld [] =
      (⟨false, some "SRPM build failed, check the logs for details.", none⟩,
       [Effect.reportStatusToAll CommitStatus.pending "Building SRPM ..." (some ""),
        Effect.createSrpmIfNeeded,
        Effect.reportStatusToAll CommitStatus.failure
          "SRPM build failed, check the logs for details."
          (some (get_srpm_log_url_from_flask 7))],
       []) :=
  (c3_srpm_failure_no_submission srpmFailHelper sampleOkWorld [] rfl rfl).1

/-- C5: the project-ensure call of `run_build` passes the list-on-homepage and
preserve-project booleans exactly when the resolved owner is the bot's own
account `"packit"`; for any other owner both are passed as unset. -/
theorem c5_booleans_only_for_packit_owner (h : CoprBuildJobHelper) (w : CoprWorld)
    (t : Option String) (p : String) (c : List String) (o : String)
    (d i : Option String) (lh pp : Option Bool) (ar : Option (List String))
    (raif : Bool)
    (hmem : Effect.createCoprProjectIfNotExists p c o d i lh pp ar raif
      ∈ (run_build h w t).2) :
    (o ≠ "packit" → lh = none ∧ pp = none) ∧
    (o = "packit" → lh = list_on_homepage h ∧ pp = preserve_project h) := by
  obtain ⟨-, -, -, -, -, hlh, hpp, -, -⟩ := createProject_shape hmem
  constructor
  · intro ho
    rw [hlh, hpp]
    simp [ho]
  · intro ho
    rw [hlh, hpp]
    simp [ho]

theorem c5_booleans_only_for_packit_owner_witness :
    ("packit" ≠ "packit" →
        (none : Option Bool) = none ∧ (none : Option Bool) = none) ∧
    ("packit" = "packit" →
        (none : Option Bool) = list_on_homepage sampleHelper ∧
        (none : Option Bool) = preserve_project sampleHelper) :=
  c5_booleans_only_for_packit_owner sampleHelper sampleOkWorld none
    (job_project sampleHelper) sampleHelper.build_targets "packit" none none
    none none (additional_repos sampleHelper) true (by decide)

/-- C9: the CLI `waiting` command prints the fixed prefix followed by the
comma-separated account names returned by the store's list-by-status for
"waiting", and every waiting account of the store occurs in that list. -/
theorem c9_waiting_prints_waiting_accounts (db : List AllowlistEntry) :
    waiting_output db =
      "Accounts waiting for approval: "
        ++ String.intercalate ", "
             ((get_accounts_by_status db "waiting").map AllowlistEntry.account_name)
    ∧ ∀ e ∈ db, e.status = "waiting" → e.account_name ∈ accounts_waiting db := by
  refine ⟨rfl, ?_⟩
  intro e he hst
  exact List.mem_map_of_mem _ (List.mem_filter.2 ⟨he, by simp [hst]⟩)

theorem c9_waiting_prints_waiting_accounts_witness :
    waiting_output fixtureDB =
      "Accounts waiting for approval: "
        ++ String.intercalate ", "
             ((get_accounts_by_status fixtureDB "waiting").map
               AllowlistEntry.account_name)
    ∧ "Deoxys" ∈ accounts_waiting fixtureDB :=
  ⟨(c9_waiting_prints_waiting_accounts fixtureDB).1,
   (c9_waiting_prints_waiting_accounts fixtureDB).2 ⟨"Deoxys", "waiting"⟩
     (by decide) rfl⟩

/-- C10: `run_build` ignores its optional `target` argument — for any target
value the result and the trace are identical to the call with the argument
unset — and every project-ensure call it makes covers the full resolved
build-target set. -/
theorem c10_run_build_target_independent (h : CoprBuildJobHelper) (w : CoprWorld)
    (t : Option String) :
    run_build h w t = run_build h w none ∧
    ∀ (p : String) (c : List String) (o : String) (d i : Option String)
      (lh pp : Option Bool) (ar : Option (List String)) (raif : Bool),
      Effect.createCoprProjectIfNotExists p c o d i lh pp ar raif
          ∈ (run_build h w t).2 →
      c = h.build_targets :=
  ⟨rfl, fun _ _ _ _ _ _ _ _ _ hmem => (createProject_shape hmem).2.2.1⟩

theorem c10_run_build_target_independent_witness :
    run_build sampleHelper sampleOkWorld (some "fedora-31-x86_64")
        = run_build sampleHelper sampleOkWorld none ∧
    sampleHelper.build_targets = sampleHelper.build_targets :=
  ⟨(c10_run_build_target_independent sampleHelper sampleOkWorld
      (some "fedora-31-x86_64")).1,
   ((c10_run_build_target_independent sampleHelper sampleOkWorld
      (some "fedora-31-x86_64")).2 (job_project sampleHelper)
      sampleHelper.build_targets "packit" none none none none
      (additional_repos sampleHelper) true (by decide)).symm ▸ rfl⟩

/-- C6: on a settings-permission error from the project-ensure call, with a
pull-request context `run_build` posts exactly one comment whose body contains
one table row (old and new value) for every field of `fields_to_change`, then
re-raises the error; without a pull-request context no comment is posted and
the error is re-raised directly. -/
theorem c6_settings_error_comments_and_reraises (h : CoprBuildJobHelper)
    (w : CoprWorld) (t : Option String) (owner m : String)
    (fields : List (String × String × String))
    (how : pyOr (job_owner h) h.configured_owner = some owner)
    (hcp : w.create_project_result =
      Except.error (PyException.packitCoprSettingsException m fields)) :
    (∀ prId, truthyNat h.metadata.pr_id = some prId →
      run_build h w t =
        (Except.error (PyException.packitCoprSettingsException m fields),
         [Effect.createCoprProjectIfNotExists (job_project h) h.build_targets owner
            none none (if owner = "packit" then list_on_homepage h else none)
            (if owner = "packit" then preserve_project h else none)
            (additional_repos h) true,
          Effect.prComment prId (settingsCommentBody owner (job_project h) fields)]) ∧
      (run_build h w t).2.countP isPrComment = 1) ∧
    (truthyNat h.metadata.pr_id = none →
      run_build h w t =
        (Except.error (PyException.packitCoprSettingsException m fields),
         [Effect.createCoprProjectIfNotExists (job_project h) h.build_targets owner
            none none (if owner = "packit" then list_on_homepage h else none)
            (if owner = "packit" then preserve_project h else none)
            (additional_repos h) true]) ∧
      (run_build h w t).2.countP isPrComment = 0) ∧
    (∀ f ∈ fields,
      strContains (settingsCommentBody owner (job_project h) fields)
        (settingsTableRow f.1 f.2.1 f.2.2)) := by
  refine ⟨?_, ?_, fun f hf => row_infix_settingsCommentBody owner (job_project h) fields f hf⟩
  · intro prId hpr
    have heq : run_build h w t =
        (Except.error (PyException.packitCoprSettingsException m fields),
         [Effect.createCoprProjectIfNotExists (job_project h) h.build_targets owner
            none none (if owner = "packit" then list_on_homepage h else none)
            (if owner = "packit" then preserve_project h else none)
            (additional_repos h) true,
          Effect.prComment prId (settingsCommentBody owner (job_project h) fields)]) := by
      simp only [run_build, how, hcp, hpr]
    refine ⟨heq, ?_⟩
    rw [heq]
    simp [List.countP_cons, isPrComment]
  · intro hpr
    have heq : run_build h w t =
        (Except.error (PyException.packitCoprSettingsException m fields),
         [Effect.createCoprProjectIfNotExists (job_project h) h.build_targets owner
            none none (if owner = "packit" then list_on_homepage h else none)
            (if owner = "packit" then preserve_project h else none)
            (additional_repos h) true]) := by
      simp only [run_build, how, hcp, hpr]
    refine ⟨heq, ?_⟩
    rw [heq]
    simp [List.countP_cons, isPrComment]

theorem c6_settings_error_comments_and_reraises_witness :
    (run_build sampleHelper sampleSettingsWorld none).2.countP isPrComment = 1 ∧
    strContains
      (settingsCommentBody "packit" (job_project sampleHelper)
        [("unlisted_on_hp", "True", "False"), ("preserve_project", "False", "True")])
      (settingsTableRow "unlisted_on_hp" "True" "False") :=
  ⟨((c6_settings_error_comments_and_reraises sampleHelper sampleSettingsWorld none
      "packit" "failed to update settings"
      [("unlisted_on_hp", "True", "False"), ("preserve_project", "False", "True")]
      rfl rfl).1 5 rfl).2,
   (c6_settings_error_comments_and_reraises sampleHelper sampleSettingsWorld none
      "packit" "failed to update settings"
      [("unlisted_on_hp", "True", "False"), ("preserve_project", "False", "True")]
      rfl rfl).2.2 ("unlisted_on_hp", "True", "False") (by decide)⟩

/-- C7: on a builder-permission error from the build submission, `run_build`
requests builder permission on the project, posts (only when a pull-request
context exists) a comment containing the link to the project permissions page,
and re-raises the error in all cases. -/
theorem c7_builder_permission_requested_and_reraised (h : CoprBuildJobHelper)
    (w : CoprWorld) (t : Option String) (owner m : String)
    (how : pyOr (job_owner h) h.configured_owner = some owner)
    (hcp : w.create_project_result = Except.ok ())
    (hcf : w.create_from_file_result =
      Except.error (PyException.coprRequestException m))
    (hperm : strContains m permissionDeniedMsg) :
    (run_build h w t).1 = Except.error (PyException.coprRequestException m) ∧
    Effect.requestPermissions owner (job_project h) true ∈ (run_build h w t).2 ∧
    (∀ prId, truthyNat h.metadata.pr_id = some prId →
      Effect.prComment prId (builderCommentBody owner (job_project h))
          ∈ (run_build h w t).2 ∧
      strContains (builderCommentBody owner (job_project h))
        (get_copr_settings_url owner (job_project h) "permissions")) ∧
    (truthyNat h.metadata.pr_id = none →
      (run_build h w t).2.countP isPrComment = 0) := by
  cases hpr : truthyNat h.metadata.pr_id with
  | some prId =>
    have heq : run_build h w t =
        (Except.error (PyException.coprRequestException m),
         [Effect.createCoprProjectIfNotExists (job_project h) h.build_targets owner
            none none (if owner = "packit" then list_on_homepage h else none)
            (if owner = "packit" then preserve_project h else none)
            (additional_repos h) true,
          Effect.createFromFile owner (job_project h) h.srpm_path,
          Effect.requestPermissions owner (job_project h) true,
          Effect.prComment prId (builderCommentBody owner (job_project h))]) := by
      simp only [run_build, how, hcp, hcf, hpr, if_pos hperm]
    rw [heq]
    refine ⟨rfl, by simp, ?_, ?_⟩
    · intro prId2 hpr2
      injection hpr2 with h2
      subst h2
      exact ⟨by simp, url_infix_builderCommentBody owner (job_project h)⟩
    · intro hpr2
      cases hpr2
  | none =>
    have heq : run_build h w t =
        (Except.error (PyException.coprRequestException m),
         [Effect.createCoprProjectIfNotExists (job_project h) h.build_targets owner
            none none (if owner = "packit" then list_on_homepage h else none)
            (if owner = "packit" then preserve_project h else none)
            (additional_repos h) true,
          Effect.createFromFile owner (job_project h) h.srpm_path,
          Effect.requestPermissions owner (job_project h) true]) := by
      simp only [run_build, how, hcp, hcf, hpr, if_pos hperm]
    rw [heq]
    refine ⟨rfl, by simp, ?_, ?_⟩
    · intro prId2 hpr2
      cases hpr2
    · intro hpr2
      simp [List.countP_cons, isPrComment]

theorem c7_builder_permission_requested_and_reraised_witness :
    (run_build sampleHelper samplePermWorld none).1 =
        Except.error (PyException.coprRequestException permissionDeniedMsg) ∧
    Effect.requestPermissions "packit" (job_project sampleHelper) true
        ∈ (run_build sampleHelper samplePermWorld none).2 :=
  ⟨(c7_builder_permission_requested_and_reraised sampleHelper samplePermWorld none
      "packit" permissionDeniedMsg rfl rfl rfl List.infix_rfl).1,
   (c7_builder_permission_requested_and_reraised sampleHelper samplePermWorld none
      "packit" permissionDeniedMsg rfl rfl rfl List.infix_rfl).2.1⟩

/-- C4: `run_copr_build` is a total function into `TaskResults` (no exception
crosses the workflow boundary in the embedding): every failure result carries
a `msg` detail, and when the submission raises any exception the result is the
failure value carrying the exception message, the exception is sent to
telemetry, an error status with the exception message is reported to all
targets, and no follow-up task is enqueued nor the submission retried. -/
theorem c4_failures_are_values_not_exceptions :
    (∀ (h : CoprBuildJobHelper) (w : CoprWorld) (db : List CoprBuildRecord),
      (run_copr_build h w db).1.success = false →
      (run_copr_build h w db).1.details_msg.isSome = true) ∧
    (∀ (h : CoprBuildJobHelper) (w : CoprWorld) (db : List CoprBuildRecord)
       (ex : PyException) (tr : List Effect),
      (h.job_build.isNone && h.job_tests.isNone) = false →
      h.srpm_model.success = true →
      run_build h w none = (Except.error ex, tr) →
      (run_copr_build h w db).1 =
        ⟨false, some "Submit of the Copr build failed.",
         some (exceptionMessage ex)⟩ ∧
      Effect.sendToSentry (exceptionMessage ex) ∈ (run_copr_build h w db).2.1 ∧
      Effect.reportStatusToAll CommitStatus.error
          ("Submit of the build failed: " ++ exceptionMessage ex) none
        ∈ (run_copr_build h w db).2.1 ∧
      (run_copr_build h w db).2.1.countP isSendTask = 0 ∧
      (run_copr_build h w db).2.1.countP isCreateFromFile ≤ 1 ∧
      (run_copr_build h w db).2.2 = db) := by
  constructor
  · intro h w db
    unfold run_copr_build
    repeat' split
    all_goals simp
  · intro h w db ex tr hj hs hrb
    have heq : run_copr_build h w db =
        (⟨false, some "Submit of the Copr build failed.",
          some (exceptionMessage ex)⟩,
         [Effect.reportStatusToAll CommitStatus.pending "Building SRPM ..." (some ""),
          Effect.createSrpmIfNeeded]
           ++ tr
           ++ [Effect.sendToSentry (exceptionMessage ex),
               Effect.reportStatusToAll CommitStatus.error
                 ("Submit of the build failed: " ++ exceptionMessage ex) none],
         db) := by
      simp only [run_copr_build, hj, hs, hrb]
      simp
    rw [heq]
    refine ⟨rfl, by simp, by simp, ?_, ?_, rfl⟩
    · rw [List.countP_append, List.countP_append]
      have h0 : tr.countP isSendTask = 0 := by
        rw [List.countP_eq_zero]
        intro e he
        have := run_build_no_sendTask h w none e (by rw [hrb]; exact he)
        simp [this]
      rw [h0]
      simp [List.countP_cons, isSendTask]
    · rw [List.countP_append, List.countP_append]
      have h1 : tr.countP isCreateFromFile ≤ 1 := by
        have := run_build_createFromFile_le_one h w none
        rwa [hrb] at this
      have h2 :
          ([Effect.reportStatusToAll CommitStatus.pending "Building SRPM ..."
              (some ""), Effect.createSrpmIfNeeded]).countP isCreateFromFile = 0 := by
        simp [List.countP_cons, isCreateFromFile]
      have h3 :
          ([Effect.sendToSentry (exceptionMessage ex),
            Effect.reportStatusToAll CommitStatus.error
              ("Submit of the build failed: " ++ exceptionMessage ex)
              none]).countP isCreateFromFile = 0 := by
        simp [List.countP_cons, isCreateFromFile]
      rw [h2, h3]
      simpa using h1

theorem c4_failures_are_values_not_exceptions_witness :
    (run_copr_build sampleHelper sampleErrWorld []).1 =
      ⟨false, some "Submit of the Copr build failed.", some "boom"⟩ :=
  (c4_failures_are_values_not_exceptions.2 sampleHelper sampleErrWorld []
    (PyException.otherException "boom")
    [Effect.createCoprProjectIfNotExists (job_project sampleHelper)
       sampleHelper.build_targets "packit" none none none none
       (additional_repos sampleHelper) true,
     Effect.createFromFile "packit" (job_project sampleHelper)
       sampleHelper.srpm_path]
    rfl rfl rfl).1

/-- C1: on successful submission, for every resolved build target exactly one
persisted record keyed by `(build_id, target)` exists with status "pending", a
pending "Starting RPM build..." status is reported for that target with the
link to that record's detail page, exactly one follow-up task is enqueued with
a fixed initial delay of 120, and a success result is returned. -/
theorem c1_success_creates_records_and_enqueues (h : CoprBuildJobHelper)
    (w : CoprWorld) (db : List CoprBuildRecord) (bid : Nat) (webUrl : String)
    (tr : List Effect)
    (hj : (h.job_build.isNone && h.job_tests.isNone) = false)
    (hs : h.srpm_model.success = true)
    (hrb : run_build h w none = (Except.ok (bid, webUrl), tr))
    (hnd : h.build_targets.Nodup)
    (hfresh : ∀ r ∈ db, r.build_id ≠ toString bid) :
    (run_copr_build h w db).1 = ⟨true, none, none⟩ ∧
    (∀ t ∈ h.build_targets,
      ((run_copr_build h w db).2.2.filter (recKey (toString bid) t)).length = 1 ∧
      ∃ r, r ∈ (run_copr_build h w db).2.2 ∧
        r.build_id = toString bid ∧ r.target = t ∧ r.status = "pending" ∧
        Effect.reportStatusToAllForChroot CommitStatus.pending
          "Starting RPM build..." (get_copr_build_info_url_from_flask r.id) t
            ∈ (run_copr_build h w db).2.1) ∧
    Effect.sendTask "task.babysit_copr_build" [bid] 120
        ∈ (run_copr_build h w db).2.1 ∧
    (run_copr_build h w db).2.1.countP isSendTask = 1 := by
  have heq : run_copr_build h w db =
      (⟨true, none, none⟩,
       [Effect.reportStatusToAll CommitStatus.pending "Building SRPM ..." (some ""),
        Effect.createSrpmIfNeeded]
         ++ tr ++ (processBuildTargets h bid webUrl h.build_targets db).1
         ++ [Effect.sendTask "task.babysit_copr_build" [bid] 120],
       (processBuildTargets h bid webUrl h.build_targets db).2) := by
    simp only [run_copr_build, hj, hs, hrb]
    simp
  have hfresh2 : ∀ t ∈ h.build_targets, ∀ r ∈ db,
      recKey (toString bid) t r = false := by
    intro t ht r hr
    simp [recKey, hfresh r hr]
  have hmain := processBuildTargets_spec h bid webUrl h.build_targets db hnd hfresh2
  rw [heq]
  refine ⟨rfl, ?_, ?_, ?_⟩
  · intro t ht
    obtain ⟨hlen, r, hrmem, hrb2, hrt, hrs2, heff⟩ := hmain t ht
    refine ⟨hlen, r, hrmem, hrb2, hrt, hrs2, ?_⟩
    simp only [List.mem_append]
    exact Or.inl (Or.inr heff)
  · simp
  · rw [List.countP_append, List.countP_append, List.countP_append]
    have h0 : tr.countP isSendTask = 0 := by
      rw [List.countP_eq_zero]
      intro e he
      have := run_build_no_sendTask h w none e (by rw [hrb]; exact he)
      simp [this]
    have h1 : ((processBuildTargets h bid webUrl h.build_targets db).1).countP
        isSendTask = 0 := by
      rw [List.countP_eq_zero]
      intro e he
      have := processBuildTargets_no_sendTask h bid webUrl h.build_targets db e he
      simp [this]
    rw [h0, h1]
    simp [List.countP_cons, isSendTask]

theorem c1_success_creates_records_and_enqueues_witness :
    (run_copr_build sampleHelper sampleOkWorld []).1 = ⟨true, none, none⟩ ∧
    ((run_copr_build sampleHelper sampleOkWorld []).2.2.filter
        (recKey (toString (123 : Nat)) "fedora-31-x86_64")).length = 1 ∧
    (run_copr_build sampleHelper sampleOkWorld []).2.1.countP isSendTask = 1 :=
  ⟨(c1_success_creates_records_and_enqueues sampleHelper sampleOkWorld [] 123
      "http://copr/build/123"
      [Effect.createCoprProjectIfNotExists (job_project sampleHelper)
         sampleHelper.build_targets "packit" none none none none
         (additional_repos sampleHelper) true,
       Effect.createFromFile "packit" (job_project sampleHelper)
         sampleHelper.srpm_path]
      rfl rfl rfl (by decide) (fun r hr => absurd hr (List.not_mem_nil r))).1,
   ((c1_success_creates_records_and_enqueues sampleHelper sampleOkWorld [] 123
      "http://copr/build/123"
      [Effect.createCoprProjectIfNotExists (job_project sampleHelper)
         sampleHelper.build_targets "packit" none none none none
         (additional_repos sampleHelper) true,
       Effect.createFromFile "packit" (job_project sampleHelper)
         sampleHelper.srpm_path]
      rfl rfl rfl (by decide) (fun r hr => absurd hr (List.not_mem_nil r))).2.1
      "fedora-31-x86_64" (by decide)).1,
   (c1_success_creates_records_and_enqueues sampleHelper sampleOkWorld [] 123
      "http://copr/build/123"
      [Effect.createCoprProjectIfNotExists (job_project sampleHelper)
         sampleHelper.build_targets "packit" none none none none
         (additional_repos sampleHelper) true,
       Effect.createFromFile "packit" (job_project sampleHelper)
         sampleHelper.srpm_path]
      rfl rfl rfl (by decide) (fun r hr => absurd hr (List.not_mem_nil r))).2.2.2⟩

/-- C8: the allowlist store keeps at most one entry per account name: adding an
existing account overwrites its status (last write wins), so after adding
"Deoxys" with "approved_manually" and then "waiting" a single entry with
status "waiting" remains, and list-by-status never counts an account twice. -/
theorem c8_allowlist_last_write_wins :
    (∀ (db : List AllowlistEntry) (n s1 s2 : String), uniqueNames db →
      uniqueNames (add_account (add_account db n s1) n s2) ∧
      ((add_account (add_account db n s1) n s2).filter
          (fun e => e.account_name = n)).length = 1 ∧
      get_account (add_account (add_account db n s1) n s2) n = some ⟨n, s2⟩) ∧
    get_account fixtureDB "Deoxys" = some ⟨"Deoxys", "waiting"⟩ ∧
    (fixtureDB.filter (fun e => e.account_name = "Deoxys")).length = 1 ∧
    (∀ (db : List AllowlistEntry) (st : String), uniqueNames db →
      ((get_accounts_by_status db st).map AllowlistEntry.account_name).Nodup) := by
  refine ⟨?_, by decide, by decide, ?_⟩
  · intro db n s1 s2 hu
    have hu1 : uniqueNames (add_account db n s1) := uniqueNames_add db n s1 hu
    exact ⟨uniqueNames_add _ n s2 hu1,
      by rw [filter_add_same _ n s2 hu1]; rfl,
      get_account_add_same _ n s2⟩
  · intro db st hu
    have hsub : List.Sublist
        ((get_accounts_by_status db st).map AllowlistEntry.account_name)
        (db.map AllowlistEntry.account_name) :=
      (List.filter_sublist db).map _
    exact hu.sublist hsub

theorem c8_allowlist_last_write_wins_witness :
    get_account (add_account (add_account [] "Deoxys" "approved_manually")
        "Deoxys" "waiting") "Deoxys" = some ⟨"Deoxys", "waiting"⟩ :=
  (c8_allowlist_last_write_wins.1 [] "Deoxys" "approved_manually" "waiting"
    (by simp [uniqueNames])).2.2

end Packit
